import Mathlib

/-!
Verification of the Fig5 synthetic-benchmark plotting script.

The script computes a closed-form synthetic throughput value for three lock
implementations (ALock, MCS, Spin) over a fixed parameter grid and composes a
3x4 grid of chart panels.  We embed the throughput model over the rationals
(the Python constants 0.15, 0.02, ... become exact rationals), model the one
normal noise draw per call as an explicit stream `noise : Nat → ℚ` consumed in
program order, and model the chart panels as plain data (series records with
color, marker, line style, label and points).
-/

namespace Fig5

inductive System where
  | ALock
  | MCS
  | Spin
deriving DecidableEq, Repr, Inhabited

inductive Contention where
  | high
  | medium
  | low
deriving DecidableEq, Repr, Inhabited

/-- NUM_NODES = [5, 10, 20] -/
def NUM_NODES : List Nat := [5, 10, 20]

/-- CONTENTION_LEVELS: number of lock keys per contention level. -/
def CONTENTION_LEVELS : Contention → Nat
  | .high => 20
  | .medium => 100
  | .low => 1000

/-- LOCALITY_PERCENTAGES = [85, 90, 95] (for columns 1-3). -/
def LOCALITY_PERCENTAGES : List Nat := [85, 90, 95]

/-- THREADS_PER_NODE = [2, 4, 6, 8, 10, 12] (x-axis values). -/
def THREADS_PER_NODE : List Nat := [2, 4, 6, 8, 10, 12]

/-- SYSTEMS: the three lock implementations in iteration order. -/
def SYSTEMS : List System := [.ALock, .MCS, .Spin]

/-- generate_synthetic_throughput before the noise draw: the per-system
base constant times thread, locality, contention and degradation factors,
mirroring the per-system branches of the Python function. -/
def preNoiseThroughput (system : System) (num_threads num_nodes : Nat)
    (contention : Contention) (locality : Nat) : ℚ :=
  let total_threads : Nat := num_threads * num_nodes
  match system with
  | .ALock =>
    let base_throughput : ℚ := 500000
    let thread_factor : ℚ := 1 + ((num_threads : ℚ) - 1) * (15 / 100)
    let locality_factor : ℚ :=
      if locality < 100 then 1 + ((locality : ℚ) - 85) * (2 / 100) else 13 / 10
    let contention_factor : ℚ :=
      match contention with
      | .high => 12 / 10
      | .medium => 1
      | .low => 85 / 100
    let degradation : ℚ :=
      if 100 < total_threads then 1 - ((total_threads : ℚ) - 100) * (1 / 1000) else 1
    base_throughput * thread_factor * locality_factor * contention_factor * degradation
  | .MCS =>
    let base_throughput : ℚ := 200000
    let thread_factor : ℚ := 1 + ((num_threads : ℚ) - 1) * (12 / 100)
    let locality_factor : ℚ :=
      if locality < 100 then 1 + ((locality : ℚ) - 85) * (1 / 100) else 1 / 10
    let contention_factor : ℚ :=
      match contention with
      | .high => 6 / 10
      | .medium => 9 / 10
      | .low => 1
    let degradation : ℚ :=
      if 80 < total_threads then 1 - ((total_threads : ℚ) - 80) * (2 / 1000) else 1
    base_throughput * thread_factor * locality_factor * contention_factor * degradation
  | .Spin =>
    let base_throughput : ℚ := 150000
    let thread_factor : ℚ := 1 + ((num_threads : ℚ) - 1) * (8 / 100)
    let locality_factor : ℚ :=
      if locality < 100 then 1 + ((locality : ℚ) - 85) * (5 / 1000) else 5 / 100
    let contention_factor : ℚ :=
      match contention with
      | .high => 4 / 10
      | .medium => 7 / 10
      | .low => 9 / 10
    let degradation : ℚ :=
      if 40 < total_threads then 1 - ((total_threads : ℚ) - 40) * (3 / 1000) else 1
    base_throughput * thread_factor * locality_factor * contention_factor * degradation

/-- generate_synthetic_throughput: multiply by the one noise draw (the value
drawn from np.random.normal(1.0, 0.05), passed explicitly) and clamp to 0. -/
def generate_synthetic_throughput (system : System) (num_threads num_nodes : Nat)
    (contention : Contention) (locality : Nat) (noise : ℚ) : ℚ :=
  max 0 (preNoiseThroughput system num_threads num_nodes contention locality * noise)

/-- Per-system base throughput constant. -/
def baseThroughput : System → ℚ
  | .ALock => 500000
  | .MCS => 200000
  | .Spin => 150000

/-- Per-system thread-factor slope k. -/
def threadSlope : System → ℚ
  | .ALock => 15 / 100
  | .MCS => 12 / 100
  | .Spin => 8 / 100

/-- Thread factor 1 + (threadsPerNode - 1) * k. -/
def threadFactor (s : System) (num_threads : Nat) : ℚ :=
  1 + ((num_threads : ℚ) - 1) * threadSlope s

/-- Per-system locality slope m for the linear regime. -/
def localitySlope : System → ℚ
  | .ALock => 2 / 100
  | .MCS => 1 / 100
  | .Spin => 5 / 1000

/-- Per-system fixed override constant at locality = 100. -/
def localityOverride : System → ℚ
  | .ALock => 13 / 10
  | .MCS => 1 / 10
  | .Spin => 5 / 100

/-- Locality factor: linear below 100, fixed override otherwise. -/
def localityFactor (s : System) (locality : Nat) : ℚ :=
  if locality < 100 then 1 + ((locality : ℚ) - 85) * localitySlope s
  else localityOverride s

/-- Per-system contention multipliers. -/
def contentionFactor : System → Contention → ℚ
  | .ALock, .high => 12 / 10
  | .ALock, .medium => 1
  | .ALock, .low => 85 / 100
  | .MCS, .high => 6 / 10
  | .MCS, .medium => 9 / 10
  | .MCS, .low => 1
  | .Spin, .high => 4 / 10
  | .Spin, .medium => 7 / 10
  | .Spin, .low => 9 / 10

/-- Per-system degradation knee (total-thread threshold). -/
def knee : System → Nat
  | .ALock => 100
  | .MCS => 80
  | .Spin => 40

/-- Per-system linear degradation rate above the knee. -/
def degradationRate : System → ℚ
  | .ALock => 1 / 1000
  | .MCS => 2 / 1000
  | .Spin => 3 / 1000

/-- Degradation factor applied once total threads exceed the knee. -/
def degradationFactor (s : System) (total_threads : Nat) : ℚ :=
  if knee s < total_threads
  then 1 - ((total_threads : ℚ) - (knee s : ℚ)) * degradationRate s
  else 1

/-- The per-system branches of the model are exactly the product of the five
named factors. -/
theorem preNoise_eq_product (s : System) (t n loc : Nat) (c : Contention) :
    preNoiseThroughput s t n c loc =
      baseThroughput s * threadFactor s t * localityFactor s loc *
        contentionFactor s c * degradationFactor s (t * n) := by
  cases s <;> cases c <;>
    simp only [preNoiseThroughput, baseThroughput, threadFactor, threadSlope,
      localityFactor, localitySlope, localityOverride, contentionFactor,
      knee, degradationFactor, degradationRate] <;>
    norm_num

/-- SYSTEM_STYLE_COLS1_3: (color, marker, base linestyle) per system for
columns 1-3. -/
def SYSTEM_STYLE_COLS1_3 : System → String × String × String
  | .ALock => ("#1f77b4", "s", "-")
  | .MCS => ("#ff7f0e", "x", "--")
  | .Spin => ("#2ca02c", "o", ":")

/-- SYSTEM_STYLE_COL4: (color, marker, base linestyle) per system for
column 4 (100% Local). -/
def SYSTEM_STYLE_COL4 : System → String × String × String
  | .ALock => ("purple", "o", "-")
  | .MCS => ("pink", "s", "--")
  | .Spin => ("orange", "x", ":")

/-- LOCALITY_STYLES: line style per locality percentage (columns 1-3).
The Python dict has exactly the keys 85, 90, 95; the loop only looks these
up, so the default branch is never reached. -/
def LOCALITY_STYLES : Nat → String
  | 85 => "-"
  | 90 => "--"
  | 95 => ":"
  | _ => ""

/-- CONTENTION_STYLES: line style per contention level (column 4). -/
def CONTENTION_STYLES : Contention → String
  | .high => "-"
  | .medium => "--"
  | .low => ":"

def systemName : System → String
  | .ALock => "ALock"
  | .MCS => "MCS"
  | .Spin => "Spin"

/-- The marker-override rule shared verbatim by both subplot builders:
dotted lines get a square marker (edge width 1), dashed lines a bold x
marker (edge width 2), solid lines keep the original marker. -/
def markerForLinestyle (linestyle marker : String) : String × Nat :=
  if linestyle = ":" then ("s", 1)
  else if linestyle = "--" then ("x", 2)
  else (marker, 1)

/-- One plotted line: the arguments handed to ax.plot, plus the parameters
(system, locality, contention) that produced it. -/
structure Series where
  system : System
  locality : Nat
  contention : Contention
  color : String
  plot_marker : String
  linestyle : String
  markeredgewidth : Nat
  label : Option String
  points : List (Nat × ℚ)
deriving DecidableEq, Repr

/-- One subplot of the grid with its decorations. -/
structure Panel where
  row : Nat
  col : Nat
  nodes : Nat
  panel_label : String
  title : String
  ylabel : String
  series : List Series
deriving DecidableEq, Repr

/-- Inner loop over THREADS_PER_NODE: one throughput (and one noise draw)
per x value.  `idx` is the position in the shared noise stream; the second
component is the stream position after the loop. -/
def pointsLoop (noise : Nat → ℚ) (system : System) (num_nodes : Nat)
    (contention : Contention) (locality : Nat) :
    List Nat → Nat → List (Nat × ℚ) × Nat
  | [], idx => ([], idx)
  | t :: ts, idx =>
    let y := generate_synthetic_throughput system t num_nodes contention locality (noise idx)
    let rest := pointsLoop noise system num_nodes contention locality ts (idx + 1)
    ((t, y) :: rest.1, rest.2)

/-- Loop over locality values for one system (body of create_subplot_cols1_3). -/
def localityLoop (noise : Nat → ℚ) (num_nodes : Nat) (contention : Contention)
    (system : System) : List Nat → Nat → List Series × Nat
  | [], idx => ([], idx)
  | locality :: rest, idx =>
    let color := (SYSTEM_STYLE_COLS1_3 system).1
    let marker := (SYSTEM_STYLE_COLS1_3 system).2.1
    let pts := pointsLoop noise system num_nodes contention locality THREADS_PER_NODE idx
    let linestyle := LOCALITY_STYLES locality
    let label : Option String :=
      if system = SYSTEMS.headI
      then some (systemName system ++ " " ++ toString locality ++ "%") else none
    let mk := markerForLinestyle linestyle marker
    let ser : Series :=
      { system := system, locality := locality, contention := contention,
        color := color, plot_marker := mk.1, linestyle := linestyle,
        markeredgewidth := mk.2, label := label, points := pts.1 }
    let others := localityLoop noise num_nodes contention system rest pts.2
    (ser :: others.1, others.2)

/-- Outer loop over systems for columns 1-3. -/
def systemsLoopCols1_3 (noise : Nat → ℚ) (num_nodes : Nat) (contention : Contention) :
    List System → Nat → List Series × Nat
  | [], idx => ([], idx)
  | s :: ss, idx =>
    let these := localityLoop noise num_nodes contention s LOCALITY_PERCENTAGES idx
    let others := systemsLoopCols1_3 noise num_nodes contention ss these.2
    (these.1 ++ others.1, others.2)

/-- create_subplot_cols1_3: 3 systems x 3 locality levels = 9 lines. -/
def create_subplot_cols1_3 (noise : Nat → ℚ) (num_nodes : Nat)
    (contention : Contention) (idx : Nat) : List Series × Nat :=
  systemsLoopCols1_3 noise num_nodes contention SYSTEMS idx

/-- Loop over contention values for one system (body of create_subplot_col4);
locality is fixed at 100. -/
def contentionLoop (noise : Nat → ℚ) (num_nodes : Nat) (system : System) :
    List Contention → Nat → List Series × Nat
  | [], idx => ([], idx)
  | contention :: rest, idx =>
    let color := (SYSTEM_STYLE_COL4 system).1
    let marker := (SYSTEM_STYLE_COL4 system).2.1
    let pts := pointsLoop noise system num_nodes contention 100 THREADS_PER_NODE idx
    let linestyle := CONTENTION_STYLES contention
    let label : Option String :=
      if system = SYSTEMS.headI
      then some (systemName system ++ " " ++ toString (CONTENTION_LEVELS contention))
      else none
    let mk := markerForLinestyle linestyle marker
    let ser : Series :=
      { system := system, locality := 100, contention := contention,
        color := color, plot_marker := mk.1, linestyle := linestyle,
        markeredgewidth := mk.2, label := label, points := pts.1 }
    let others := contentionLoop noise num_nodes system rest pts.2
    (ser :: others.1, others.2)

/-- Outer loop over systems for column 4. -/
def systemsLoopCol4 (noise : Nat → ℚ) (num_nodes : Nat) :
    List System → Nat → List Series × Nat
  | [], idx => ([], idx)
  | s :: ss, idx =>
    let these := contentionLoop noise num_nodes s [.high, .medium, .low] idx
    let others := systemsLoopCol4 noise num_nodes ss these.2
    (these.1 ++ others.1, others.2)

/-- create_subplot_col4: 3 systems x 3 contention levels = 9 lines. -/
def create_subplot_col4 (noise : Nat → ℚ) (num_nodes : Nat) (idx : Nat) :
    List Series × Nat :=
  systemsLoopCol4 noise num_nodes SYSTEMS idx

/-- Subplot labels (a)..(l). -/
def panelLabels : List String :=
  ["(a)", "(b)", "(c)", "(d)", "(e)", "(f)", "(g)", "(h)", "(i)", "(j)", "(k)", "(l)"]

def col_titles : List String := ["20 Keys", "100 Keys", "1000 Keys", "100% Local"]

def row_titles : List String := ["5 Nodes", "10 Nodes", "20 Nodes"]

/-- The contention level of columns 0-2, indexed high, medium, low. -/
def colContention : Nat → Contention
  | 0 => .high
  | 1 => .medium
  | _ => .low

/-- Inner loop of create_figure5_grid over the enumerated node counts of one
column; threads the label index and the noise-stream position. -/
def rowLoop (noise : Nat → ℚ) (col : Nat) :
    List (Nat × Nat) → Nat → Nat → List Panel × Nat × Nat
  | [], label_idx, idx => ([], label_idx, idx)
  | (row, num_nodes) :: rest, label_idx, idx =>
    let sr : List Series × Nat :=
      if col < 3 then create_subplot_cols1_3 noise num_nodes (colContention col) idx
      else create_subplot_col4 noise num_nodes idx
    let p : Panel :=
      { row := row, col := col, nodes := num_nodes,
        panel_label := panelLabels.getD label_idx "",
        title := col_titles.getD col "" ++ ", " ++ row_titles.getD row "",
        ylabel := if 0 < col then "" else "Throughput (ops/s)",
        series := sr.1 }
    let others := rowLoop noise col rest (label_idx + 1) sr.2
    (p :: others.1, others.2)

/-- Outer loop of create_figure5_grid over the four column indices. -/
def colLoop (noise : Nat → ℚ) : List Nat → Nat → Nat → List Panel × Nat × Nat
  | [], label_idx, idx => ([], label_idx, idx)
  | col :: cols, label_idx, idx =>
    let these := rowLoop noise col NUM_NODES.enum label_idx idx
    let others := colLoop noise cols these.2.1 these.2.2
    (these.1 ++ others.1, others.2)

/-- create_figure5_grid: the 12 panels in traversal order (columns outer,
rows inner), with the noise stream consumed in that order starting at 0. -/
def create_figure5_grid (noise : Nat → ℚ) : List Panel :=
  (colLoop noise (List.range 4) 0 0).1

/-- Total number of noise draws consumed by a full run. -/
def drawsConsumed (noise : Nat → ℚ) : Nat :=
  (colLoop noise (List.range 4) 0 0).2.2

/-- The flat sequence of throughput values of a run, in draw order. -/
def throughputSequence (noise : Nat → ℚ) : List ℚ :=
  ((create_figure5_grid noise).map
    (fun p => (p.series.map (fun s => s.points.map Prod.snd)).flatten)).flatten

/-- pointsLoop advances the noise-stream position by one per x value. -/
theorem pointsLoop_snd (noise : Nat → ℚ) (s : System) (nn : Nat) (c : Contention)
    (loc : Nat) (ts : List Nat) : ∀ idx : Nat,
    (pointsLoop noise s nn c loc ts idx).2 = idx + ts.length := by
  induction ts with
  | nil => intro idx; simp [pointsLoop]
  | cons t ts ih =>
    intro idx
    simp only [pointsLoop, List.length_cons]
    rw [ih (idx + 1)]
    omega

/-- pointsLoop reads the noise stream only below its final position. -/
theorem pointsLoop_congr (noise₁ noise₂ : Nat → ℚ) (s : System) (nn : Nat)
    (c : Contention) (loc : Nat) (ts : List Nat) : ∀ idx : Nat,
    (∀ j, j < idx + ts.length → noise₁ j = noise₂ j) →
    pointsLoop noise₁ s nn c loc ts idx = pointsLoop noise₂ s nn c loc ts idx := by
  induction ts with
  | nil => intro idx _; rfl
  | cons t ts ih =>
    intro idx h
    have h1 : noise₁ idx = noise₂ idx :=
      h idx (by simp only [List.length_cons]; omega)
    have h2 := ih (idx + 1)
      (fun j hj => h j (by simp only [List.length_cons]; omega))
    simp only [pointsLoop, h1, h2]

/-- localityLoop consumes 6 draws (one per THREADS_PER_NODE entry) per
locality value. -/
theorem localityLoop_snd (noise : Nat → ℚ) (nn : Nat) (c : Contention)
    (system : System) (locs : List Nat) : ∀ idx : Nat,
    (localityLoop noise nn c system locs idx).2 = idx + locs.length * 6 := by
  induction locs with
  | nil => intro idx; simp [localityLoop]
  | cons loc locs ih =>
    intro idx
    simp only [localityLoop]
    rw [ih, pointsLoop_snd]
    simp only [THREADS_PER_NODE, List.length_cons, List.length_nil]
    omega

/-- localityLoop reads the noise stream only below its final position. -/
theorem localityLoop_congr (noise₁ noise₂ : Nat → ℚ) (nn : Nat) (c : Contention)
    (system : System) (locs : List Nat) : ∀ idx : Nat,
    (∀ j, j < idx + locs.length * 6 → noise₁ j = noise₂ j) →
    localityLoop noise₁ nn c system locs idx = localityLoop noise₂ nn c system locs idx := by
  induction locs with
  | nil => intro idx _; rfl
  | cons loc locs ih =>
    intro idx h
    have h1 := pointsLoop_congr noise₁ noise₂ system nn c loc THREADS_PER_NODE idx
      (fun j hj => h j (by
        simp only [THREADS_PER_NODE, List.length_cons, List.length_nil] at hj
        simp only [List.length_cons]
        omega))
    have h2 := ih ((pointsLoop noise₂ system nn c loc THREADS_PER_NODE idx).2)
      (fun j hj => h j (by
        rw [pointsLoop_snd] at hj
        simp only [THREADS_PER_NODE, List.length_cons, List.length_nil] at hj
        simp only [List.length_cons]
        omega))
    simp only [localityLoop, h1, h2]

/-- systemsLoopCols1_3 consumes 18 draws per system. -/
theorem systemsLoopCols1_3_snd (noise : Nat → ℚ) (nn : Nat) (c : Contention)
    (ss : List System) : ∀ idx : Nat,
    (systemsLoopCols1_3 noise nn c ss idx).2 = idx + ss.length * 18 := by
  induction ss with
  | nil => intro idx; simp [systemsLoopCols1_3]
  | cons s ss ih =>
    intro idx
    simp only [systemsLoopCols1_3]
    rw [ih, localityLoop_snd]
    simp only [LOCALITY_PERCENTAGES, List.length_cons, List.length_nil]
    omega

/-- systemsLoopCols1_3 reads the noise stream only below its final position. -/
theorem systemsLoopCols1_3_congr (noise₁ noise₂ : Nat → ℚ) (nn : Nat)
    (c : Contention) (ss : List System) : ∀ idx : Nat,
    (∀ j, j < idx + ss.length * 18 → noise₁ j = noise₂ j) →
    systemsLoopCols1_3 noise₁ nn c ss idx = systemsLoopCols1_3 noise₂ nn c ss idx := by
  induction ss with
  | nil => intro idx _; rfl
  | cons s ss ih =>
    intro idx h
    have h1 := localityLoop_congr noise₁ noise₂ nn c s LOCALITY_PERCENTAGES idx
      (fun j hj => h j (by
        simp only [LOCALITY_PERCENTAGES, List.length_cons, List.length_nil] at hj
        simp only [List.length_cons]
        omega))
    have h2 := ih ((localityLoop noise₂ nn c s LOCALITY_PERCENTAGES idx).2)
      (fun j hj => h j (by
        rw [localityLoop_snd] at hj
        simp only [LOCALITY_PERCENTAGES, List.length_cons, List.length_nil] at hj
        simp only [List.length_cons]
        omega))
    simp only [systemsLoopCols1_3, h1, h2]

/-- contentionLoop consumes 6 draws per contention value. -/
theorem contentionLoop_snd (noise : Nat → ℚ) (nn : Nat) (system : System)
    (cs : List Contention) : ∀ idx : Nat,
    (contentionLoop noise nn system cs idx).2 = idx + cs.length * 6 := by
  induction cs with
  | nil => intro idx; simp [contentionLoop]
  | cons c cs ih =>
    intro idx
    simp only [contentionLoop]
    rw [ih, pointsLoop_snd]
    simp only [THREADS_PER_NODE, List.length_cons, List.length_nil]
    omega

/-- contentionLoop reads the noise stream only below its final position. -/
theorem contentionLoop_congr (noise₁ noise₂ : Nat → ℚ) (nn : Nat)
    (system : System) (cs : List Contention) : ∀ idx : Nat,
    (∀ j, j < idx + cs.length * 6 → noise₁ j = noise₂ j) →
    contentionLoop noise₁ nn system cs idx = contentionLoop noise₂ nn system cs idx := by
  induction cs with
  | nil => intro idx _; rfl
  | cons c cs ih =>
    intro idx h
    have h1 := pointsLoop_congr noise₁ noise₂ system nn c 100 THREADS_PER_NODE idx
      (fun j hj => h j (by
        simp only [THREADS_PER_NODE, List.length_cons, List.length_nil] at hj
        simp only [List.length_cons]
        omega))
    have h2 := ih ((pointsLoop noise₂ system nn c 100 THREADS_PER_NODE idx).2)
      (fun j hj => h j (by
        rw [pointsLoop_snd] at hj
        simp only [THREADS_PER_NODE, List.length_cons, List.length_nil] at hj
        simp only [List.length_cons]
        omega))
    simp only [contentionLoop, h1, h2]

/-- systemsLoopCol4 consumes 18 draws per system. -/
theorem systemsLoopCol4_snd (noise : Nat → ℚ) (nn : Nat)
    (ss : List System) : ∀ idx : Nat,
    (systemsLoopCol4 noise nn ss idx).2 = idx + ss.length * 18 := by
  induction ss with
  | nil => intro idx; simp [systemsLoopCol4]
  | cons s ss ih =>
    intro idx
    simp only [systemsLoopCol4]
    rw [ih, contentionLoop_snd]
    simp only [List.length_cons, List.length_nil]
    omega

/-- systemsLoopCol4 reads the noise stream only below its final position. -/
theorem systemsLoopCol4_congr (noise₁ noise₂ : Nat → ℚ) (nn : Nat)
    (ss : List System) : ∀ idx : Nat,
    (∀ j, j < idx + ss.length * 18 → noise₁ j = noise₂ j) →
    systemsLoopCol4 noise₁ nn ss idx = systemsLoopCol4 noise₂ nn ss idx := by
  induction ss with
  | nil => intro idx _; rfl
  | cons s ss ih =>
    intro idx h
    have h1 := contentionLoop_congr noise₁ noise₂ nn s [.high, .medium, .low] idx
      (fun j hj => h j (by
        simp only [List.length_cons, List.length_nil] at hj
        simp only [List.length_cons]
        omega))
    have h2 := ih ((contentionLoop noise₂ nn s [.high, .medium, .low] idx).2)
      (fun j hj => h j (by
        rw [contentionLoop_snd] at hj
        simp only [List.length_cons, List.length_nil] at hj
        simp only [List.length_cons]
        omega))
    simp only [systemsLoopCol4, h1, h2]

/-- rowLoop consumes 54 draws (9 series of 6 points) per panel. -/
theorem rowLoop_snd (noise : Nat → ℚ) (col : Nat) (rows : List (Nat × Nat)) :
    ∀ l idx : Nat, (rowLoop noise col rows l idx).2.2 = idx + rows.length * 54 := by
  induction rows with
  | nil => intro l idx; simp [rowLoop]
  | cons r rows ih =>
    intro l idx
    obtain ⟨row, nn⟩ := r
    by_cases hcol : col < 3 <;>
      simp only [rowLoop, hcol, if_pos, if_neg, ite_true, ite_false, reduceIte] <;>
      rw [ih] <;>
      simp only [create_subplot_cols1_3, create_subplot_col4] <;>
      first
      | (rw [systemsLoopCols1_3_snd]
         simp only [SYSTEMS, List.length_cons, List.length_nil]
         omega)
      | (rw [systemsLoopCol4_snd]
         simp only [SYSTEMS, List.length_cons, List.length_nil]
         omega)

/-- rowLoop reads the noise stream only below its final position. -/
theorem rowLoop_congr (noise₁ noise₂ : Nat → ℚ) (col : Nat)
    (rows : List (Nat × Nat)) : ∀ l idx : Nat,
    (∀ j, j < idx + rows.length * 54 → noise₁ j = noise₂ j) →
    rowLoop noise₁ col rows l idx = rowLoop noise₂ col rows l idx := by
  induction rows with
  | nil => intro l idx _; rfl
  | cons r rows ih =>
    intro l idx h
    obtain ⟨row, nn⟩ := r
    by_cases hcol : col < 3
    · have h1 := systemsLoopCols1_3_congr noise₁ noise₂ nn (colContention col) SYSTEMS idx
        (fun j hj => h j (by
          simp only [SYSTEMS, List.length_cons, List.length_nil] at hj
          simp only [List.length_cons]
          omega))
      have h2 := ih (l + 1) ((create_subplot_cols1_3 noise₂ nn (colContention col) idx).2)
        (fun j hj => h j (by
          simp only [create_subplot_cols1_3] at hj
          rw [systemsLoopCols1_3_snd] at hj
          simp only [SYSTEMS, List.length_cons, List.length_nil] at hj
          simp only [List.length_cons]
          omega))
      simp only [rowLoop, hcol, ite_true, reduceIte, create_subplot_cols1_3, h1]
      simp only [create_subplot_cols1_3] at h2
      rw [h2]
    · have h1 := systemsLoopCol4_congr noise₁ noise₂ nn SYSTEMS idx
        (fun j hj => h j (by
          simp only [SYSTEMS, List.length_cons, List.length_nil] at hj
          simp only [List.length_cons]
          omega))
      have h2 := ih (l + 1) ((create_subplot_col4 noise₂ nn idx).2)
        (fun j hj => h j (by
          simp only [create_subplot_col4] at hj
          rw [systemsLoopCol4_snd] at hj
          simp only [SYSTEMS, List.length_cons, List.length_nil] at hj
          simp only [List.length_cons]
          omega))
      simp only [rowLoop, hcol, ite_false, reduceIte, create_subplot_col4, h1]
      simp only [create_subplot_col4] at h2
      rw [h2]

/-- colLoop consumes 162 draws (3 panels of 54) per column. -/
theorem colLoop_snd (noise : Nat → ℚ) (cols : List Nat) :
    ∀ l idx : Nat, (colLoop noise cols l idx).2.2 = idx + cols.length * 162 := by
  induction cols with
  | nil => intro l idx; simp [colLoop]
  | cons col cols ih =>
    intro l idx
    simp only [colLoop]
    rw [ih, rowLoop_snd]
    simp only [NUM_NODES, List.enum, List.length_cons, List.length_nil,
      List.enumFrom, List.length_cons]
    omega

/-- colLoop reads the noise stream only below its final position. -/
theorem colLoop_congr (noise₁ noise₂ : Nat → ℚ) (cols : List Nat) :
    ∀ l idx : Nat,
    (∀ j, j < idx + cols.length * 162 → noise₁ j = noise₂ j) →
    colLoop noise₁ cols l idx = colLoop noise₂ cols l idx := by
  induction cols with
  | nil => intro l idx _; rfl
  | cons col cols ih =>
    intro l idx h
    have hlen : (NUM_NODES.enum).length * 54 = 162 := by
      simp [NUM_NODES, List.enum, List.enumFrom]
    have h1 := rowLoop_congr noise₁ noise₂ col NUM_NODES.enum l idx
      (fun j hj => h j (by
        rw [hlen] at hj
        simp only [List.length_cons]
        omega))
    have h2 := ih ((rowLoop noise₂ col NUM_NODES.enum l idx).2.1)
      ((rowLoop noise₂ col NUM_NODES.enum l idx).2.2)
      (fun j hj => h j (by
        rw [rowLoop_snd, hlen] at hj
        simp only [List.length_cons]
        omega))
    simp only [colLoop, h1, h2]

/-- C1: for every parameter tuple the pre-noise throughput is the product of
the per-system base constant (ALock=500000, MCS=200000, Spin=150000), the
thread factor 1 + (threadsPerNode - 1) * k with k = 0.15/0.12/0.08, the
locality factor, the contention factor (ALock: 1.2/1.0/0.85 for
high/medium/low; MCS and Spin: low > medium > high), and the degradation
factor. -/
theorem C1_preNoise_is_factor_product (s : System) (t n loc : Nat) (c : Contention) :
    preNoiseThroughput s t n c loc =
      baseThroughput s * threadFactor s t * localityFactor s loc *
        contentionFactor s c * degradationFactor s (t * n) ∧
    baseThroughput .ALock = 500000 ∧
    baseThroughput .MCS = 200000 ∧
    baseThroughput .Spin = 150000 ∧
    threadFactor .ALock t = 1 + ((t : ℚ) - 1) * (15 / 100) ∧
    threadFactor .MCS t = 1 + ((t : ℚ) - 1) * (12 / 100) ∧
    threadFactor .Spin t = 1 + ((t : ℚ) - 1) * (8 / 100) ∧
    contentionFactor .ALock .high = 12 / 10 ∧
    contentionFactor .ALock .medium = 1 ∧
    contentionFactor .ALock .low = 85 / 100 ∧
    contentionFactor .MCS .high < contentionFactor .MCS .medium ∧
    contentionFactor .MCS .medium < contentionFactor .MCS .low ∧
    contentionFactor .Spin .high < contentionFactor .Spin .medium ∧
    contentionFactor .Spin .medium < contentionFactor .Spin .low := by
  refine ⟨preNoise_eq_product s t n loc c, rfl, rfl, rfl, rfl, rfl, rfl,
    rfl, rfl, rfl, ?_, ?_, ?_, ?_⟩ <;> norm_num [contentionFactor]

/-- C2: for every parameter tuple and every noise draw (negative ones
included) the result is the pre-noise value times the noise, clamped to zero
from below, hence nonnegative. -/
theorem C2_result_nonneg (s : System) (t n loc : Nat) (c : Contention) (noise : ℚ) :
    0 ≤ generate_synthetic_throughput s t n c loc noise ∧
    generate_synthetic_throughput s t n c loc noise =
      max 0 (preNoiseThroughput s t n c loc * noise) :=
  ⟨le_max_left 0 _, rfl⟩

/-- C3: the locality factor used by the throughput model is
1 + (locality - 85) * m (m = 0.02/0.01/0.005) whenever locality < 100 and
the fixed override constant (1.3/0.1/0.05) at locality = 100; in particular
for MCS at locality = 100 the factor is 0.1, not the linear value 1.15. -/
theorem C3_locality_factor (s : System) (loc t n : Nat) (h : loc < 100) :
    localityFactor s loc = 1 + ((loc : ℚ) - 85) * localitySlope s ∧
    localityFactor s 100 = localityOverride s ∧
    localitySlope .ALock = 2 / 100 ∧
    localitySlope .MCS = 1 / 100 ∧
    localitySlope .Spin = 5 / 1000 ∧
    localityOverride .ALock = 13 / 10 ∧
    localityOverride .MCS = 1 / 10 ∧
    localityOverride .Spin = 5 / 100 ∧
    localityFactor .MCS 100 = 1 / 10 ∧
    localityFactor .MCS 100 ≠ 1 + ((100 : ℚ) - 85) * localitySlope .MCS ∧
    (∀ c, preNoiseThroughput s t n c loc =
      baseThroughput s * threadFactor s t * (1 + ((loc : ℚ) - 85) * localitySlope s) *
        contentionFactor s c * degradationFactor s (t * n)) := by
  have hlin : localityFactor s loc = 1 + ((loc : ℚ) - 85) * localitySlope s := by
    simp [localityFactor, if_pos h]
  refine ⟨hlin, by simp [localityFactor], rfl, rfl, rfl, rfl, rfl, rfl,
    by simp [localityFactor, localityOverride], ?_, ?_⟩
  · norm_num [localityFactor, localityOverride, localitySlope]
  · intro c
    rw [preNoise_eq_product, hlin]

/-- C4: the degradation factor is exactly 1 whenever total threads are at or
below the per-system knee (100/80/40), and 1 - (total - knee) * rate
(rate 0.001/0.002/0.003) above the knee, with no lower clamp on the factor
itself; for ALock with nodeCount=5 and threadsPerNode=12 (total 60) it is
exactly 1. -/
theorem C4_degradation (s : System) (T : Nat) :
    (T ≤ knee s → degradationFactor s T = 1) ∧
    (knee s < T →
      degradationFactor s T = 1 - ((T : ℚ) - (knee s : ℚ)) * degradationRate s) ∧
    knee .ALock = 100 ∧ knee .MCS = 80 ∧ knee .Spin = 40 ∧
    degradationRate .ALock = 1 / 1000 ∧
    degradationRate .MCS = 2 / 1000 ∧
    degradationRate .Spin = 3 / 1000 ∧
    degradationFactor s (knee s) = 1 ∧
    degradationFactor .ALock (12 * 5) = 1 ∧
    degradationFactor .ALock 2000 < 0 := by
  refine ⟨fun h => by simp [degradationFactor, if_neg (Nat.not_lt.2 h)],
    fun h => by simp [degradationFactor, if_pos h],
    rfl, rfl, rfl, rfl, rfl, rfl, by simp [degradationFactor], ?_, ?_⟩
  · simp [degradationFactor, knee]
  · norm_num [degradationFactor, knee, degradationRate]

set_option maxRecDepth 10000

/-- C5: the grid has exactly 12 panels arranged as 3 rows (node counts 5,
10, 20) by 4 columns, each with exactly 9 series (3 systems x 3 variants),
and the labels (a)..(l) are assigned in column-major traversal order. -/
theorem C5_grid_layout (noise : Nat → ℚ) :
    (create_figure5_grid noise).length = 12 ∧
    (create_figure5_grid noise).map (fun p => (p.row, p.col, p.nodes)) =
      [(0, 0, 5), (1, 0, 10), (2, 0, 20), (0, 1, 5), (1, 1, 10), (2, 1, 20),
       (0, 2, 5), (1, 2, 10), (2, 2, 20), (0, 3, 5), (1, 3, 10), (2, 3, 20)] ∧
    (create_figure5_grid noise).map Panel.panel_label = panelLabels ∧
    panelLabels =
      ["(a)", "(b)", "(c)", "(d)", "(e)", "(f)",
       "(g)", "(h)", "(i)", "(j)", "(k)", "(l)"] ∧
    ((create_figure5_grid noise).all fun p => p.series.length == 9) = true ∧
    ((create_figure5_grid noise).all fun p =>
      p.series.map Series.system ==
        [.ALock, .ALock, .ALock, .MCS, .MCS, .MCS, .Spin, .Spin, .Spin]) = true ∧
    ((create_figure5_grid noise).all fun p =>
      if p.col < 3
      then p.series.map Series.locality == [85, 90, 95, 85, 90, 95, 85, 90, 95]
      else p.series.map Series.contention ==
        [.high, .medium, .low, .high, .medium, .low, .high, .medium, .low]) = true :=
  ⟨rfl, rfl, rfl, rfl, rfl, rfl, rfl⟩

/-- C6: the run is a deterministic function of the seeded noise stream: two
runs whose streams agree on the 648 draws consumed (one draw per
computeThroughput call, in panel/system/variant/thread order) produce
identical grids and identical throughput sequences. -/
theorem C6_reproducible (noise₁ noise₂ : Nat → ℚ)
    (h : ∀ j, j < 648 → noise₁ j = noise₂ j) :
    create_figure5_grid noise₁ = create_figure5_grid noise₂ ∧
    throughputSequence noise₁ = throughputSequence noise₂ ∧
    drawsConsumed noise₁ = 648 := by
  have hg : create_figure5_grid noise₁ = create_figure5_grid noise₂ := by
    unfold create_figure5_grid
    rw [colLoop_congr noise₁ noise₂ (List.range 4) 0 0
      (fun j hj => h j (by simp only [List.length_range] at hj; omega))]
  refine ⟨hg, by unfold throughputSequence; rw [hg], ?_⟩
  unfold drawsConsumed
  rw [colLoop_snd]
  simp [List.length_range]

/-- Witness for C6: a run compared with itself. -/
theorem C6_reproducible_witness :
    create_figure5_grid (fun _ => 1) = create_figure5_grid (fun _ => 1) ∧
    throughputSequence (fun _ => 1) = throughputSequence (fun _ => 1) ∧
    drawsConsumed (fun _ => 1) = 648 :=
  C6_reproducible (fun _ => 1) (fun _ => 1) (fun _ _ => rfl)

/-- C7: in every panel a series carries a legend label exactly when it
belongs to the first system in iteration order (ALock), so each panel has
exactly 3 labelled series (one per variant of the first system). -/
theorem C7_legend_first_system_only (noise : Nat → ℚ) :
    ((create_figure5_grid noise).all fun p => p.series.all fun s =>
      s.label.isSome == (s.system == SYSTEMS.headI)) = true ∧
    SYSTEMS.headI = System.ALock ∧
    ((create_figure5_grid noise).all fun p =>
      (p.series.filter fun s => s.label.isSome).length == 3) = true :=
  ⟨rfl, rfl, rfl⟩

/-- C8: in every panel the marker of each series is derived from its line style
(dotted: square, edge width 1; dashed: bold x, edge width 2; solid: the
default marker of the system for that panel type), and the line style is
mapped from the variant value (locality 85/90/95 or contention
high/medium/low to solid/dashed/dotted). -/
theorem C8_marker_from_linestyle (noise : Nat → ℚ) :
    ((create_figure5_grid noise).all fun p => p.series.all fun s =>
      (let defMarker := if p.col < 3 then (SYSTEM_STYLE_COLS1_3 s.system).2.1
                        else (SYSTEM_STYLE_COL4 s.system).2.1
       (if s.linestyle == ":" then s.plot_marker == "s" && s.markeredgewidth == 1
        else if s.linestyle == "--" then s.plot_marker == "x" && s.markeredgewidth == 2
        else s.plot_marker == defMarker && s.markeredgewidth == 1)
       && (if p.col < 3 then s.linestyle == LOCALITY_STYLES s.locality
           else s.linestyle == CONTENTION_STYLES s.contention))) = true ∧
    LOCALITY_STYLES 85 = "-" ∧ LOCALITY_STYLES 90 = "--" ∧
    LOCALITY_STYLES 95 = ":" ∧
    CONTENTION_STYLES .high = "-" ∧ CONTENTION_STYLES .medium = "--" ∧
    CONTENTION_STYLES .low = ":" :=
  ⟨rfl, rfl, rfl, rfl, rfl, rfl, rfl⟩

/-- The console output and exception outcome of one run of main. -/
structure MainOutcome where
  printed : List String
  raised : Option String
deriving DecidableEq, Repr

/-- main: prints the header, runs the grid construction (whose outcome,
success with a save path or an exception message, is passed in explicitly),
and on failure prints the error message plus the diagnostic traceback; the
except-clause swallows the exception, so nothing is re-raised. -/
def mainRun (build : Except String String) : MainOutcome :=
  let header := ["Generating Figure 5 grid layout...", String.mk (List.replicate 60 '=')]
  match build with
  | .ok save_path =>
    { printed := header ++
        ["\n" ++ String.mk (List.replicate 60 '='),
         "✓ Successfully generated Figure 5 grid: " ++ save_path,
         "\nNote: This uses synthetic data. Replace generate_synthetic_throughput() with your real data!"],
      raised := none }
  | .error e =>
    { printed := header ++
        ["\n❌ Error generating plot: " ++ e,
         "Traceback (most recent call last): " ++ e],
      raised := none }

/-- C9: main never lets an exception escape: for every failure of the grid
construction it prints a human-readable message plus the diagnostic trace
and terminates normally, with no retry and no cleanup step. -/
theorem C9_main_catches_all (build : Except String String) :
    (mainRun build).raised = none ∧
    (∀ e, mainRun (.error e) =
      { printed :=
          ["Generating Figure 5 grid layout...",
           String.mk (List.replicate 60 '='),
           "\n❌ Error generating plot: " ++ e,
           "Traceback (most recent call last): " ++ e],
        raised := none }) := by
  constructor
  · cases build <;> rfl
  · intro e; rfl

/-- Witness for C3 at MCS, locality 90. -/
theorem C3_locality_factor_witness :
    localityFactor .MCS 90 = 1 + ((90 : ℚ) - 85) * localitySlope .MCS ∧
    localityFactor .MCS 100 = 1 / 10 :=
  ⟨(C3_locality_factor .MCS 90 2 5 (by norm_num)).1,
   (C3_locality_factor .MCS 90 2 5 (by norm_num)).2.2.2.2.2.2.2.2.1⟩

/-- Witness for C4 at ALock total 60 (below knee) and MCS total 100 (above
knee). -/
theorem C4_degradation_witness :
    degradationFactor .ALock 60 = 1 ∧
    degradationFactor .MCS 100 =
      1 - ((100 : ℚ) - (knee .MCS : ℚ)) * degradationRate .MCS :=
  ⟨(C4_degradation .ALock 60).1 (by norm_num [knee]),
   (C4_degradation .MCS 100).2.1 (by norm_num [knee])⟩

/-- The locality values that occur in the documented grid: 85/90/95 in
columns 1-3 and 100 in column 4. -/
def gridLocalities : List Nat := [85, 90, 95, 100]

/-- Below 240 total threads the degradation factors stay above 0.86, 0.68
and 0.4 respectively. -/
theorem degradation_bound (T : Nat) (hT : T ≤ 240) :
    (86 / 100 : ℚ) ≤ degradationFactor .ALock T ∧
    (68 / 100 : ℚ) ≤ degradationFactor .MCS T ∧
    (4 / 10 : ℚ) ≤ degradationFactor .Spin T := by
  have hTQ : (T : ℚ) ≤ 240 := by exact_mod_cast hT
  refine ⟨?_, ?_, ?_⟩ <;>
    · simp only [degradationFactor, knee, degradationRate]
      split
      · push_cast
        linarith
      · norm_num

/-- The thread factor is strictly positive for every thread count. -/
theorem threadFactor_pos (s : System) (t : Nat) : 0 < threadFactor s t := by
  have h0 : (0 : ℚ) ≤ (t : ℚ) := Nat.cast_nonneg t
  cases s <;> simp only [threadFactor, threadSlope] <;> linarith

/-- The locality factor is strictly positive at every grid locality. -/
theorem localityFactor_pos (s : System) (loc : Nat) (hl : loc ∈ gridLocalities) :
    0 < localityFactor s loc := by
  fin_cases hl <;> cases s <;>
    norm_num [localityFactor, localitySlope, localityOverride]

/-- C10: over the documented grid (threadsPerNode in THREADS_PER_NODE,
nodeCount in NUM_NODES) the degradation factor stays at least 0.86 for
ALock, 0.68 for MCS and 0.4 for Spin, hence strictly positive, so the
pre-noise throughput is strictly positive and the final clamp can only fire
on a nonpositive noise draw. -/
theorem C10_grid_degradation (s : System) (t n loc : Nat) (c : Contention)
    (ht : t ∈ THREADS_PER_NODE) (hn : n ∈ NUM_NODES) (hl : loc ∈ gridLocalities) :
    (86 / 100 : ℚ) ≤ degradationFactor .ALock (t * n) ∧
    (68 / 100 : ℚ) ≤ degradationFactor .MCS (t * n) ∧
    (4 / 10 : ℚ) ≤ degradationFactor .Spin (t * n) ∧
    0 < degradationFactor s (t * n) ∧
    0 < preNoiseThroughput s t n c loc ∧
    ∀ noise : ℚ, 0 < noise → 0 < generate_synthetic_throughput s t n c loc noise := by
  have ht12 : t ≤ 12 := by fin_cases ht <;> norm_num
  have hn20 : n ≤ 20 := by fin_cases hn <;> norm_num
  have htn : t * n ≤ 240 := le_trans (Nat.mul_le_mul ht12 hn20) (by norm_num)
  obtain ⟨h1, h2, h3⟩ := degradation_bound (t * n) htn
  have h5 : 0 < degradationFactor s (t * n) := by
    cases s
    · exact lt_of_lt_of_le (by norm_num) h1
    · exact lt_of_lt_of_le (by norm_num) h2
    · exact lt_of_lt_of_le (by norm_num) h3
  have h7 : 0 < preNoiseThroughput s t n c loc := by
    rw [preNoise_eq_product]
    have hb : 0 < baseThroughput s := by cases s <;> norm_num [baseThroughput]
    have hcf : 0 < contentionFactor s c := by
      cases s <;> cases c <;> norm_num [contentionFactor]
    exact mul_pos (mul_pos (mul_pos (mul_pos hb (threadFactor_pos s t))
      (localityFactor_pos s loc hl)) hcf) h5
  refine ⟨h1, h2, h3, h5, h7, fun noise hnoise => ?_⟩
  have hpos := mul_pos h7 hnoise
  unfold generate_synthetic_throughput
  exact lt_max_iff.mpr (Or.inr hpos)

/-- Witness for C10 at the worst grid point (threadsPerNode 12, 20 nodes)
and at Spin under high contention. -/
theorem C10_grid_degradation_witness :
    (4 / 10 : ℚ) ≤ degradationFactor .Spin (12 * 20) ∧
    0 < preNoiseThroughput .Spin 12 20 .high 85 ∧
    0 < generate_synthetic_throughput .Spin 12 20 .high 85 1 :=
  ⟨(C10_grid_degradation .Spin 12 20 85 .high (by decide) (by decide) (by decide)).2.2.1,
   (C10_grid_degradation .Spin 12 20 85 .high (by decide) (by decide) (by decide)).2.2.2.2.1,
   (C10_grid_degradation .Spin 12 20 85 .high (by decide) (by decide) (by decide)).2.2.2.2.2
     1 (by norm_num)⟩

end Fig5
